import Mathlib

/-!
# Verification of the mwc-wallet atomic-swap core

A shallow embedding of the swap owner API (`src/libwallet/src/api_impl/owner_swap.rs`)
and the BTC swap API (`src/libwallet/src/swap/bitcoin/api.rs`) of the repository,
together with theorems settling the frozen claims about the natural-language spec.

Modelling conventions:
* Rust `Result<T, ErrorKind>` becomes `Except ErrorKind T`.
* `u64` arithmetic becomes `Nat`; Rust `saturating_sub` on `u64` coincides with
  `Nat` subtraction, which is what the embedding uses.
* External collaborators (wallet backend, keychain, node clients, the FSM states,
  the trades file store internals) are abstracted into explicit parameters or an
  environment record of `Except`-valued functions; the control flow of the embedded
  functions themselves is translated statement-by-statement from the source.
* Effectful owner-API functions are embedded in a state monad over the persisted
  trade store, which additionally records a trace of the observable events
  (lock acquisitions, trade reads/writes, FSM `process` calls, message sends),
  so that claims about persistence and locking become statements about the
  final store and the emitted trace.
-/

namespace MwcWallet

/-- Secondary currencies, from the spec list in section 3 (the enum itself lives in
`swap/types.rs`, outside the provided sources; only `Btc` vs non-`Btc` matters here). -/
inductive Currency
  | Btc | Bch | Ltc | Dash | Doge | Zcash
  deriving DecidableEq, Repr

/-- MWC network, from `swap/types.rs` usage in `bitcoin/api.rs`. -/
inductive Network
  | Floonet | Mainnet
  deriving DecidableEq, Repr

/-- `StateId` of the FSM (`swap/fsm/state.rs`). The concrete states are not needed
by the claims, so the identifier is kept abstract as a tagged value. -/
structure StateId where
  tag : Nat
  deriving DecidableEq, Repr

/-- The error taxonomy of `swap/error.rs` (spec section 7), restricted to the
constructors the embedded code actually produces. -/
inductive ErrorKind
  | TradeIoError (id : String) (msg : String)
  | Generic (msg : String)
  | OneShot (msg : String)
  | UnexpectedCoinType
  | UnexpectedRole (msg : String)
  | UnexpectedAction (msg : String)
  | NodeError (msg : String)
  deriving DecidableEq, Repr

/- ## BTC chain data (`swap/bitcoin/`) -/

/-- An outpoint of a BTC transaction; `txid` models the `sha256d::Hash` of the
funding transaction as an abstract number, `vout` the output index. -/
structure OutPoint where
  txid : Nat
  vout : Nat
  deriving DecidableEq, Repr

/-- An unspent output of the lock address, as returned by
`btc_node_client.unspent` (`swap/bitcoin/client.rs`): outpoint, value in satoshi,
and the height of the containing block (`0` means the tx is still in the mempool). -/
structure Output where
  out_point : OutPoint
  value : Nat
  height : Nat
  deriving DecidableEq, Repr

/-- One step of the classification loop of `BtcSwapApi::btc_balance`
(`swap/bitcoin/api.rs` lines 111-133).  The accumulator mirrors the four mutable
locals `pending_amount`, `confirmed_amount`, `least_confirmations`,
`confirmed_outputs`. -/
def btcBalanceStep (height : Nat) (confirmations_needed : Nat)
    (acc : Nat × Nat × Option Nat × List Output) (output : Output) :
    Nat × Nat × Option Nat × List Output :=
  let (pending_amount, confirmed_amount, least_confirmations, confirmed_outputs) := acc
  if output.height = 0 then
    -- Output in mempool
    (pending_amount + output.value, confirmed_amount, some 0, confirmed_outputs)
  else
    let confirmations := height - output.height + 1
    if confirmations_needed ≤ confirmations then
      -- Enough confirmations
      (pending_amount, confirmed_amount + output.value, least_confirmations,
        confirmed_outputs ++ [output])
    else
      -- Not yet enough confirmations
      let least_confirmations :=
        if (least_confirmations.map fun least => decide (confirmations < least)).getD true then
          some confirmations
        else least_confirmations
      (pending_amount + output.value, confirmed_amount, least_confirmations,
        confirmed_outputs ++ [output])

/-- `BtcSwapApi::btc_balance` (`swap/bitcoin/api.rs` lines 95-141).  The node
interaction (`unspent(&address)` and `height()`) is abstracted into the `outputs`
and `height` parameters; the classification loop and the final
`least_confirmations.unwrap_or(0)` are translated directly. -/
def btc_balance (outputs : List Output) (height : Nat) (confirmations_needed : Nat) :
    Nat × Nat × Nat × List Output :=
  let (pending_amount, confirmed_amount, least_confirmations, confirmed_outputs) :=
    outputs.foldl (btcBalanceStep height confirmations_needed) (0, 0, none, [])
  (pending_amount, confirmed_amount, least_confirmations.getD 0, confirmed_outputs)

/-- Some claim-side (spec-side) abbreviations used to state what `btc_balance`
computes.  Confirmation count of an on-chain output relative to the tip. -/
def confOf (height : Nat) (o : Output) : Nat :=
  height - o.height + 1

/-- Spec-side: an output classified as confirmed by the threshold. -/
def isConfirmedOutput (height confirmations_needed : Nat) (o : Output) : Prop :=
  o.height ≠ 0 ∧ confirmations_needed ≤ confOf height o

instance (height confirmations_needed : Nat) (o : Output) :
    Decidable (isConfirmedOutput height confirmations_needed o) := by
  unfold isConfirmedOutput; infer_instance

/-- Spec-side: total value of the outputs classified as pending
(mempool outputs plus on-chain outputs below the threshold). -/
def pendingSpec (outputs : List Output) (height confirmations_needed : Nat) : Nat :=
  ((outputs.filter fun o =>
    o.height = 0 ∨ confOf height o < confirmations_needed).map Output.value).sum

/-- Spec-side: total value of the outputs classified as confirmed. -/
def confirmedSpec (outputs : List Output) (height confirmations_needed : Nat) : Nat :=
  ((outputs.filter fun o =>
    decide (isConfirmedOutput height confirmations_needed o)).map Output.value).sum

/-- Spec-side: the running `least_confirmations` value, folded over the outputs
starting from an arbitrary current value. -/
def leastFold (height confirmations_needed : Nat) (least : Option Nat) :
    List Output → Option Nat
  | [] => least
  | o :: os =>
    if o.height = 0 then
      leastFold height confirmations_needed (some 0) os
    else if confirmations_needed ≤ confOf height o then
      leastFold height confirmations_needed least os
    else
      let least :=
        if (least.map fun l => decide (confOf height o < l)).getD true then some (confOf height o)
        else least
      leastFold height confirmations_needed least os

/-- Spec-side: the confirmation counts of the pending (below-threshold) on-chain
outputs. -/
def pendConfs (height confirmations_needed : Nat) (outputs : List Output) : List Nat :=
  (outputs.filter fun o =>
    decide (o.height ≠ 0 ∧ confOf height o < confirmations_needed)).map (confOf height)

/-- Spec-side: the claimed `least_confirmations` — `0` as soon as a mempool output
exists, else the minimum confirmation count over the pending on-chain outputs,
else `0`. -/
def leastSpec (outputs : List Output) (height confirmations_needed : Nat) : Nat :=
  if outputs.any fun o => o.height == 0 then 0
  else ((pendConfs height confirmations_needed outputs).min?).getD 0

/- ## Output sorting (`seller_build_redeem_tx`, `swap/bitcoin/api.rs` line 183) -/

/-- The comparison used by the source line
`conf_outputs.sort_by(|a, b| a.out_point.txid.cmp(&b.out_point.txid))`. -/
def txidLe (a b : Output) : Prop :=
  a.out_point.txid ≤ b.out_point.txid

instance : DecidableRel txidLe := fun _ _ => Nat.decLe _ _

instance : IsTotal Output txidLe := ⟨fun _ _ => Nat.le_total _ _⟩

instance : IsTrans Output txidLe := ⟨fun _ _ _ => Nat.le_trans⟩

/-- Strict version of the comparison, for uniqueness arguments. -/
def txidLt (a b : Output) : Prop :=
  a.out_point.txid < b.out_point.txid

instance : IsAntisymm Output txidLt :=
  ⟨fun _ _ h1 h2 => absurd (Nat.lt_trans h1 h2) (Nat.lt_irrefl _)⟩

/-- Rust `Vec::sort_by` is a stable sort; any stable sort computes the same list,
so it is modelled by `List.insertionSort` with the txid comparison. -/
def sortByTxid (l : List Output) : List Output :=
  l.insertionSort txidLe

/- ## BTC swap API (`swap/bitcoin/api.rs`) -/

/-- The BTC-specific portion of `swap.secondary_data` (`swap/bitcoin/types.rs`,
`BtcData`); only the published txids matter for the embedded functions. -/
structure BtcData where
  redeem_tx : Option Nat
  refund_tx : Option Nat
  deriving DecidableEq, Repr

/-- Roles of `swap.role` (`swap/types.rs`). -/
inductive Role
  | Seller | Buyer
  deriving DecidableEq, Repr

/-- The persisted `Swap` aggregate (`swap/swap.rs`), restricted to the fields the
embedded functions read; the remaining fields are abstracted into `payload`,
which the environment-provided FSM may use freely. -/
structure Swap where
  id : String
  state : StateId
  role : Role
  secondary_currency : Currency
  network : Network
  secondary_redeem_address : String
  secondary_data : BtcData
  payload : Nat
  deriving DecidableEq, Repr

/-- A signed BTC transaction together with its txid (`BtcTtansaction` in
`swap/bitcoin/types.rs`); the raw transaction is abstracted. -/
structure BtcTtansaction where
  txid : Nat
  deriving DecidableEq, Repr

/-- Observable events of the BTC API functions, used to state that a failing call
constructs and posts nothing. -/
inductive BtcEvent
  | queriedNode
  | builtTx
  | postedTx
  deriving DecidableEq, Repr

/-- Result-with-trace monad for the BTC API: an `Except` computation that also
appends the observable events it performs. -/
def N (α : Type) : Type :=
  List BtcEvent → Except ErrorKind α × List BtcEvent

instance MonadN : Monad N where
  pure a := fun t => (Except.ok a, t)
  bind m f := fun t =>
    match m t with
    | (Except.ok a, t2) => f a t2
    | (Except.error e, t2) => (Except.error e, t2)

/-- Fail in `N`. -/
def Nthrow (e : ErrorKind) : N α := fun t => (Except.error e, t)

/-- Record an event in `N`. -/
def NemitEvent (ev : BtcEvent) : N Unit := fun t => (Except.ok (), t ++ [ev])

/-- Lift the result of an external call into `N`. -/
def NliftEx (r : Except ErrorKind α) : N α := fun t => (r, t)

/-- Environment of the `BtcSwapApi` methods: the results of keychain, address
parsing and node-client calls the methods make. -/
structure BtcApiEnv where
  /-- `Address::from_str` on the stored redeem address: `some` when it parses. -/
  parseAddress : String → Option Unit
  /-- `keychain.derive_key(0, cosign_id, SwitchCommitmentType::None)`. -/
  deriveCosignKey : Except ErrorKind Unit
  /-- `SellApi::calculate_redeem_secret(keychain, swap)`. -/
  calcRedeemSecret : Except ErrorKind Unit
  /-- `self.script(swap)` — the roll-back script rebuilt from the swap. -/
  scriptOf : Swap → Except ErrorKind Unit
  /-- `btc_node_client.unspent(address)` for the lock address of the swap. -/
  unspentOutputs : List Output
  /-- `btc_node_client.height()`. -/
  btcTip : Nat
  /-- `btc_data.build_redeem_tx(...)` applied to the sorted outputs. -/
  buildRedeemTx : List Output → Except ErrorKind BtcTtansaction
  /-- `btc_node_client.post_tx(tx)`. -/
  postTxResult : Except ErrorKind Unit

/-- `BtcSwapApi::seller_build_redeem_tx` (`swap/bitcoin/api.rs` lines 145-196),
translated statement-by-statement; the context/keychain material and the node are
supplied by `env`. -/
def seller_build_redeem_tx (env : BtcApiEnv) (swap : Swap) : N BtcTtansaction := do
  -- let redeem_address = Address::from_str(&swap.unwrap_seller()?.0)
  if swap.role ≠ Role.Seller then
    Nthrow (ErrorKind.UnexpectedRole "Expected Seller role")
  match env.parseAddress swap.secondary_redeem_address with
  | none => Nthrow (ErrorKind.Generic "Unable to parse BTC redeem address")
  | some _ => pure ()
  NliftEx env.deriveCosignKey
  NliftEx env.calcRedeemSecret
  -- This function should only be called once
  if swap.secondary_data.redeem_tx.isSome then
    Nthrow (ErrorKind.OneShot "Fn: seller_build_redeem_tx, btc_data.redeem_tx is not empty")
  NemitEvent BtcEvent.queriedNode
  let (pending_amount, confirmed_amount, _, conf_outputs) :=
    btc_balance env.unspentOutputs env.btcTip 0
  if pending_amount + confirmed_amount = 0 then
    Nthrow (ErrorKind.Generic "Not found outputs to redeem. Probably Buyer already refund it")
  -- Sort needed for transaction hash stabilization
  let conf_outputs := sortByTxid conf_outputs
  NemitEvent BtcEvent.builtTx
  NliftEx (env.buildRedeemTx conf_outputs)

/-- `BtcSwapApi::publish_secondary_transaction` (`swap/bitcoin/api.rs` lines
491-519); returns the updated swap on success (the source mutates `swap` through
`&mut`). -/
def publish_secondary_transaction (env : BtcApiEnv) (swap : Swap) (retry : Bool) :
    N Swap := do
  -- assert!(swap.is_seller()) : violated assertions are modelled as an error
  if swap.role ≠ Role.Seller then
    Nthrow (ErrorKind.UnexpectedRole "assertion failed: swap.is_seller()")
  NliftEx (env.scriptOf swap)
  let btc_tx ← seller_build_redeem_tx env swap
  NemitEvent BtcEvent.postedTx
  NliftEx env.postTxResult
  if !retry ∧ swap.secondary_data.redeem_tx.isSome then
    Nthrow (ErrorKind.UnexpectedAction
      "btc_data.redeem_confirmations is already defined at publish_secondary_transaction()")
  pure { swap with secondary_data := { swap.secondary_data with redeem_tx := some btc_tx.txid } }

/-- `BtcSwapApi::get_btc_confirmation_number` (`swap/bitcoin/api.rs` lines
287-304).  `lookup` stands for `btc_node_client.transaction(&tx_hash)`, returning
`none` when the node does not know the transaction and otherwise the optional
height (the raw transaction itself is irrelevant and dropped). -/
def get_btc_confirmation_number
    (lookup : Nat → Except ErrorKind (Option (Option Nat)))
    (btc_tip : Nat) (tx_hash : Option Nat) : Except ErrorKind (Option Nat) :=
  match tx_hash with
  | none => Except.ok none
  | some tx_hash =>
    match lookup tx_hash with
    | Except.error e => Except.error e
    | Except.ok none => Except.ok none
    | Except.ok (some none) => Except.ok (some 0)
    | Except.ok (some (some h)) => Except.ok (some (btc_tip - h + 1))

/- ## Context creation (`swap/bitcoin/api.rs` lines 355-414) -/

/-- Key identifiers handed out by the wallet (`grin_keychain::Identifier`). -/
abbrev Identifier := Nat

/-- Seller inputs: `(Identifier, Option<u64>, u64)` triples. -/
abbrev SellerInput := Identifier × Option Nat × Nat

/-- `BtcSellerContext` (`swap/bitcoin/types.rs`). -/
structure BtcSellerContext where
  cosign : Identifier
  deriving DecidableEq, Repr

/-- `BtcBuyerContext` (`swap/bitcoin/types.rs`). -/
structure BtcBuyerContext where
  refund : Identifier
  deriving DecidableEq, Repr

/-- `SecondarySellerContext` (`swap/types.rs`). -/
inductive SecondarySellerContext
  | Btc (c : BtcSellerContext)
  deriving DecidableEq, Repr

/-- `SecondaryBuyerContext` (`swap/types.rs`). -/
inductive SecondaryBuyerContext
  | Btc (c : BtcBuyerContext)
  deriving DecidableEq, Repr

/-- `SellerContext` (`swap/types.rs`). -/
structure SellerContext where
  inputs : List SellerInput
  change_output : Identifier
  change_amount : Nat
  refund_output : Identifier
  secondary_context : SecondarySellerContext
  deriving DecidableEq, Repr

/-- `BuyerContext` (`swap/types.rs`). -/
structure BuyerContext where
  output : Identifier
  redeem : Identifier
  secondary_context : SecondaryBuyerContext
  deriving DecidableEq, Repr

/-- `RoleContext` (`swap/types.rs`). -/
inductive RoleContext
  | Seller (c : SellerContext)
  | Buyer (c : BuyerContext)
  deriving DecidableEq, Repr

/-- The per-trade `Context` (`swap/types.rs`).  The four random nonces generated
by `generate_nonce(secp)` are non-deterministic and carry no information the
claims touch, so they are omitted from the embedding. -/
structure SwapContext where
  multisig_key : Identifier
  role_context : RoleContext
  deriving DecidableEq, Repr

/-- Outcome of `create_context`: a Rust panic (`keys.next().unwrap()` on an
exhausted iterator) is a separate failure mode from an `ErrorKind` return. -/
inductive Failure
  | err (e : ErrorKind)
  | panicked
  deriving DecidableEq, Repr

/-- `BtcSwapApi::context_key_count` (`swap/bitcoin/api.rs` lines 355-366). -/
def context_key_count (secondary_currency : Currency) : Except ErrorKind Nat :=
  if secondary_currency ≠ Currency.Btc then Except.error ErrorKind.UnexpectedCoinType
  else Except.ok 4

/-- `BtcSwapApi::create_context` (`swap/bitcoin/api.rs` lines 368-414).  The
`keys` vector is consumed through `keys.into_iter()` with four successive
`keys.next().unwrap()` calls, modelled positionally: running out of keys is the
`panicked` outcome.  Field order follows the source: seller `change_output`,
`refund_output`, `cosign`, then `multisig_key`; buyer `output`, `redeem`,
`refund`, then `multisig_key`. -/
def create_context (secondary_currency : Currency) (is_seller : Bool)
    (inputs : Option (List SellerInput)) (change_amount : Nat)
    (keys : List Identifier) : Except Failure SwapContext :=
  if secondary_currency ≠ Currency.Btc then
    Except.error (Failure.err ErrorKind.UnexpectedCoinType)
  else if is_seller then
    match inputs with
    | none =>
      Except.error (Failure.err
        (ErrorKind.UnexpectedRole "Fn create_context() for seller not found inputs"))
    | some ins =>
      match keys with
      | change :: refund :: cosign :: multisig :: _ =>
        Except.ok
          { multisig_key := multisig
            role_context := RoleContext.Seller
              { inputs := ins
                change_output := change
                change_amount := change_amount
                refund_output := refund
                secondary_context := SecondarySellerContext.Btc { cosign := cosign } } }
      | _ => Except.error Failure.panicked
  else
    match keys with
    | output :: redeem :: refund :: multisig :: _ =>
      Except.ok
        { multisig_key := multisig
          role_context := RoleContext.Buyer
            { output := output
              redeem := redeem
              secondary_context := SecondaryBuyerContext.Btc { refund := refund } } }
    | _ => Except.error Failure.panicked

/- ## Owner API (`api_impl/owner_swap.rs`) -/

/-- `Update` of the message protocol (`swap/message.rs`); the payloads are
abstracted since the owner API only dispatches on the variant. -/
inductive Update
  | NoneU
  | Offer (secondary_currency : Currency) (payload : Nat)
  | AcceptOffer (payload : Nat)
  | InitRedeem (payload : Nat)
  | Redeem (payload : Nat)
  deriving DecidableEq, Repr

/-- A swap `Message` (`swap/message.rs`): the SwapID it routes to plus the inner
update. -/
structure Message where
  id : String
  inner : Update
  deriving DecidableEq, Repr

/-- `Input` of the FSM (`swap/fsm/state.rs`). -/
inductive Input
  | Check
  | Execute (refund_address : Option String) (fee_satoshi_per_byte : Option Nat)
  | Cancel
  | IncomeMessage (m : Message)
  deriving DecidableEq, Repr

/-- `Input::execute()` — the plain execute input with no arguments. -/
def Input.execute : Input := Input.Execute none none

/-- `Action` of the FSM (`swap/types.rs`), every variant the `swap_process` match
dispatches on. -/
inductive Action
  | NoneA
  | SellerSendOfferMessage (m : Message)
  | BuyerSendAcceptOfferMessage (m : Message)
  | BuyerSendInitRedeemMessage (m : Message)
  | SellerSendRedeemMessage (m : Message)
  | SellerWaitingForOfferMessage
  | SellerWaitingForInitRedeemMessage
  | BuyerWaitingForRedeemMessage
  | SellerPublishMwcLockTx
  | SellerPublishTxSecondaryRedeem (c : Currency)
  | BuyerPublishMwcRedeemTx
  | SellerPublishMwcRefundTx
  | BuyerPublishSecondaryRefundTx (c : Currency)
  | DepositSecondary (c : Currency) (amount : Nat) (address : String)
  | WaitForConfirmations
  deriving DecidableEq, Repr

/-- `StateProcessRespond` (`swap/fsm/state.rs`), restricted to the fields the
owner API reads. -/
structure StateProcessRespond where
  next_state_id : StateId
  action : Option Action
  deriving DecidableEq, Repr

/-- The confirmation snapshot `SwapTransactionsConfirmations`; its contents are
opaque to the owner API, which only threads it into `process`. -/
abbrev TxConf := Nat

/-- The per-trade private `Context` as seen by the owner API — opaque. -/
abbrev Context := Nat

/-- A persisted trade record: `(Context, Swap)` as stored by the trades store. -/
abbrev TradeRecord := Context × Swap

/-- The trades file store, keyed by SwapID string. -/
abbrev Store := String → Option TradeRecord

/-- Observable events of the owner API functions.  `acquireWalletLock` /
`releaseWalletLock` mark the `wallet_lock!` scope; `acquireTradeLock` would mark
the acquisition of the per-SwapID advisory lock of the trades store (spec
section 4.4 `get_lock`); `getTrade` / `storeTrade` are the trades-store reads and
writes; `fsmProcess` is a call of `fsm.process`; `sendMessage` is a call of the
caller-supplied `message_sender`.  The wallet-lock guard also drops on every
early error return; only explicit in-function scope ends are traced as
`releaseWalletLock`. -/
inductive Event
  | acquireWalletLock
  | releaseWalletLock
  | acquireTradeLock (id : String)
  | getTrade (id : String)
  | storeTrade (id : String)
  | fsmProcess (inp : Input)
  | sendMessage
  | readMessageFile
  | walletTxOp
  deriving DecidableEq, Repr

/-- State-and-trace monad of the owner API: a computation over the persisted
trade store that records its observable events and may fail. -/
def M (α : Type) : Type :=
  Store → List Event → Except ErrorKind α × Store × List Event

instance MonadM : Monad M where
  pure a := fun s t => (Except.ok a, s, t)
  bind m f := fun s t =>
    match m s t with
    | (Except.ok a, s2, t2) => f a s2 t2
    | (Except.error e, s2, t2) => (Except.error e, s2, t2)

/-- Fail in `M`. -/
def Mthrow (e : ErrorKind) : M α := fun s t => (Except.error e, s, t)

/-- Record an event in `M`. -/
def emitEvent (ev : Event) : M Unit := fun s t => (Except.ok (), s, t ++ [ev])

/-- Lift the result of an external call into `M`. -/
def MliftEx (r : Except ErrorKind α) : M α := fun s t => (r, s, t)

/-- `trades::get_swap_trade(swap_id, &skey)` — read a record from the store.
Modelled from the spec: the trades store itself (`trades.rs`) is not among the
provided sources; per spec section 4.4 `get` fails when the record is absent,
and section 7 classifies persistence failures as `TradeIoError`. -/
def getSwapTrade (swap_id : String) : M TradeRecord := fun s t =>
  match s swap_id with
  | some r => (Except.ok r, s, t ++ [Event.getTrade swap_id])
  | none =>
    (Except.error (ErrorKind.TradeIoError swap_id "Swap trade not found"), s,
      t ++ [Event.getTrade swap_id])

/-- `trades::get_swap_trade(swap_id, &skey).is_ok()` — the existence probe used
by `swap_start` and `swap_income_message`. -/
def tradeExists (swap_id : String) : M Bool := fun s t =>
  (Except.ok (s swap_id).isSome, s, t ++ [Event.getTrade swap_id])

/-- `trades::store_swap_trade(&context, &swap, &skey)` — write the record under
the swap id.  Modelled from the spec (section 4.4 `store`: atomic overwrite keyed
by SwapID); `trades.rs` is not among the provided sources. -/
def storeSwapTrade (context : Context) (swap : Swap) : M Unit := fun s t =>
  (Except.ok (),
    fun id => if id = swap.id then some (context, swap) else s id,
    t ++ [Event.storeTrade swap.id])

/-- The swap-start parameters `SwapStartArgs` the embedding needs. -/
structure SwapStartArgs where
  secondary_currency : String
  deriving DecidableEq, Repr

/-- Environment of the owner API: results of every external call the functions
under `api_impl/owner_swap.rs` perform (wallet backend, keychain, node clients,
`create_instance`, and the FSM returned by `get_fsm`). -/
structure OwnerEnv where
  /-- `w.keychain(keychain_mask)`. -/
  keychainRes : Except ErrorKind Unit
  /-- `keychain.derive_key(0, &w.parent_key_id(), SwitchCommitmentType::None)`. -/
  deriveKeyRes : Except ErrorKind Unit
  /-- `node_client.get_chain_tip()?.0`. -/
  chainTip : Except ErrorKind Nat
  /-- `Currency::try_from(params.secondary_currency.as_str())`. -/
  parseCurrency : String → Except ErrorKind Currency
  /-- `crate::swap::api::create_instance(&currency, node_client)`. -/
  createInstance : Currency → Except ErrorKind Unit
  /-- `selection::select_coins_and_fee(...)` in `swap_start`. -/
  selectCoins : Except ErrorKind Unit
  /-- The local `create_context` helper building a seller context. -/
  makeSellerContext : Currency → Except ErrorKind Context
  /-- The local `create_context` helper building a buyer context. -/
  makeBuyerContext : Currency → Except ErrorKind Context
  /-- `swap_api.create_swap_offer(...)` — the freshly minted swap. -/
  createSwapOffer : Currency → Except ErrorKind Swap
  /-- `BuyApi::accept_swap_offer(...)` on an incoming offer message. -/
  acceptSwapOffer : Message → Except ErrorKind Swap
  /-- `swap_api.request_tx_confirmations(&keychain, &swap)`. -/
  requestConf : Swap → Except ErrorKind TxConf
  /-- `fsm.process(input, &mut swap, &context, &tx_conf)`: the respond plus the
  mutated swap. -/
  fsmProcessFn : Input → Swap → Context → TxConf →
    Except ErrorKind (StateProcessRespond × Swap)
  /-- `fsm.is_cancellable(&swap)`. -/
  isCancellable : Swap → Except ErrorKind Bool
  /-- `fsm.has_state(&state)`. -/
  hasState : StateId → Bool
  /-- `StateId::from_cmd_str(adjust_cmd)`. -/
  parseStateCmd : String → Except ErrorKind StateId
  /-- `Message::from_json(...)`. -/
  parseMessage : String → Except ErrorKind Message
  /-- `File::open` + `read_to_string` on the message file. -/
  readFileRes : String → Except ErrorKind String
  /-- Whether `w.tx_log_iter()` already contains the slate kernel excess. -/
  txLogHasKernel : Swap → Bool
  /-- `selection::lock_tx_context(...)`. -/
  lockTxContext : Except ErrorKind Unit
  /-- `create_receive_tx_record(...)`. -/
  receiveTxRecord : Except ErrorKind Unit

/-- `swap_start` (`api_impl/owner_swap.rs` lines 43-128). -/
def swap_start (env : OwnerEnv) (params : SwapStartArgs) : M String := do
  emitEvent Event.acquireWalletLock
  MliftEx env.keychainRes
  MliftEx env.deriveKeyRes
  let _height ← MliftEx env.chainTip
  let secondary_currency ← MliftEx (env.parseCurrency params.secondary_currency)
  MliftEx (env.createInstance secondary_currency)
  MliftEx env.selectCoins
  let context ← MliftEx (env.makeSellerContext secondary_currency)
  let swap ← MliftEx (env.createSwapOffer secondary_currency)
  -- Store swap result into the file.
  let swap_id := swap.id
  let exists0 ← tradeExists swap_id
  if exists0 then
    -- Should be impossible, uuid suppose to be unique. But we don't want to overwrite anything
    Mthrow (ErrorKind.TradeIoError swap_id "This trade record already exist")
  storeSwapTrade context swap
  pure swap_id

/-- `swap_adjust` (`api_impl/owner_swap.rs` lines 189-240). -/
def swap_adjust (env : OwnerEnv) (swap_id : String) (adjust_cmd : String) :
    M (StateId × Action) := do
  emitEvent Event.acquireWalletLock
  MliftEx env.keychainRes
  MliftEx env.deriveKeyRes
  let (context, swap) ← getSwapTrade swap_id
  MliftEx (env.createInstance swap.secondary_currency)
  if adjust_cmd = "cancel" then
    let c ← MliftEx (env.isCancellable swap)
    if !c then
      Mthrow (ErrorKind.Generic "Swap Trade is not cancellable at current stage")
    -- Cancelling the trade
    let tx_conf ← MliftEx (env.requestConf swap)
    emitEvent (Event.fsmProcess Input.Cancel)
    let (resp, swap) ← MliftEx (env.fsmProcessFn Input.Cancel swap context tx_conf)
    storeSwapTrade context swap
    pure (swap.state, resp.action.getD Action.NoneA)
  else
    let state ← MliftEx (env.parseStateCmd adjust_cmd)
    if !env.hasState state then
      Mthrow (ErrorKind.Generic ("State " ++ adjust_cmd ++ " is invalid for this trade"))
    let swap := { swap with state := state }
    let tx_conf ← MliftEx (env.requestConf swap)
    emitEvent (Event.fsmProcess Input.Check)
    let (resp, swap) ← MliftEx (env.fsmProcessFn Input.Check swap context tx_conf)
    storeSwapTrade context swap
    pure (swap.state, resp.action.getD Action.NoneA)

/-- `get_swap_status_action` (`api_impl/owner_swap.rs` lines 261-287). -/
def get_swap_status_action (env : OwnerEnv) (swap_id : String) :
    M (StateId × Action) := do
  emitEvent Event.acquireWalletLock
  MliftEx env.keychainRes
  MliftEx env.deriveKeyRes
  let (context, swap) ← getSwapTrade swap_id
  MliftEx (env.createInstance swap.secondary_currency)
  let tx_conf ← MliftEx (env.requestConf swap)
  emitEvent (Event.fsmProcess Input.Check)
  let (resp, swap) ← MliftEx (env.fsmProcessFn Input.Check swap context tx_conf)
  -- Action might update the states. Need to save it
  storeSwapTrade context swap
  pure (resp.next_state_id, resp.action.getD Action.NoneA)

/-- `swap_income_message` (`api_impl/owner_swap.rs` lines 588-668). -/
def swap_income_message (env : OwnerEnv) (swap_message : String) : M Unit := do
  let message ← MliftEx (env.parseMessage swap_message)
  let swap_id := message.id
  match message.inner with
  | Update.NoneU =>
    Mthrow (ErrorKind.Generic "Get empty message, nothing to process")
  | Update.Offer secondary_currency _payload => do
    -- We get an offer
    emitEvent Event.acquireWalletLock
    MliftEx env.keychainRes
    MliftEx env.deriveKeyRes
    let exists0 ← tradeExists swap_id
    if exists0 then
      Mthrow (ErrorKind.Generic ("trade with SwapID " ++ swap_id ++
        " already exist. Probably you already processed this message"))
    MliftEx (env.createInstance secondary_currency)
    -- Creating Buyer context
    let context ← MliftEx (env.makeBuyerContext secondary_currency)
    let swap ← MliftEx (env.acceptSwapOffer message)
    storeSwapTrade context swap
    pure ()
  | _ => do
    emitEvent Event.acquireWalletLock
    MliftEx env.keychainRes
    MliftEx env.deriveKeyRes
    let (context, swap) ← getSwapTrade swap_id
    MliftEx (env.createInstance swap.secondary_currency)
    let tx_conf ← MliftEx (env.requestConf swap)
    emitEvent (Event.fsmProcess (Input.IncomeMessage message))
    let (_, swap) ← MliftEx
      (env.fsmProcessFn (Input.IncomeMessage message) swap context tx_conf)
    storeSwapTrade context swap
    pure ()

/-- `swap_process` (`api_impl/owner_swap.rs` lines 316-525).  The caller-supplied
`message_sender` closure is the `sender` parameter; `destination` and
`fee_satoshi_per_byte` are the optional command arguments. -/
def swap_process (env : OwnerEnv) (swap_id : String)
    (sender : Message → Except ErrorKind Unit)
    (destination : Option String) (fee_satoshi_per_byte : Option Nat) :
    M StateProcessRespond := do
  -- the wallet lock is taken only for the inner scope of lines 330-336
  emitEvent Event.acquireWalletLock
  MliftEx env.keychainRes
  emitEvent Event.releaseWalletLock
  MliftEx env.deriveKeyRes
  let (context, swap) ← getSwapTrade swap_id
  MliftEx (env.createInstance swap.secondary_currency)
  let tx_conf ← MliftEx (env.requestConf swap)
  emitEvent (Event.fsmProcess Input.Check)
  let (process_respond, swap) ← MliftEx (env.fsmProcessFn Input.Check swap context tx_conf)
  -- Action might update the states. Need to save it
  storeSwapTrade context swap
  match process_respond.action with
  | none => pure process_respond
  | some act =>
    match act with
    | Action.SellerSendOfferMessage message
    | Action.BuyerSendAcceptOfferMessage message
    | Action.BuyerSendInitRedeemMessage message
    | Action.SellerSendRedeemMessage message => do
      emitEvent Event.sendMessage
      MliftEx (sender message)
      emitEvent (Event.fsmProcess Input.execute)
      let (process_respond, swap) ←
        MliftEx (env.fsmProcessFn Input.execute swap context tx_conf)
      storeSwapTrade context swap
      pure process_respond
    | Action.SellerWaitingForOfferMessage
    | Action.SellerWaitingForInitRedeemMessage
    | Action.BuyerWaitingForRedeemMessage => do
      let message_fn ← match destination with
        | none => Mthrow (ErrorKind.Generic
            "Please define destination value if you you are processing income message from the file")
        | some d => pure d
      emitEvent Event.readMessageFile
      let contents ← MliftEx (env.readFileRes message_fn)
      let message ← MliftEx (env.parseMessage contents)
      if message.id ≠ swap.id then
        Mthrow (ErrorKind.Generic "Message id doesnt match selected trade id")
      swap_income_message env contents
      pure process_respond
    | Action.SellerPublishMwcLockTx => do
      emitEvent Event.acquireWalletLock
      -- Checking if transaction is already created.
      if !env.txLogHasKernel swap then
        emitEvent Event.walletTxOp
        MliftEx env.lockTxContext
      emitEvent (Event.fsmProcess Input.execute)
      let (process_respond, swap) ←
        MliftEx (env.fsmProcessFn Input.execute swap context tx_conf)
      storeSwapTrade context swap
      pure process_respond
    | Action.SellerPublishTxSecondaryRedeem _ => do
      emitEvent (Event.fsmProcess Input.execute)
      let (process_respond, swap) ←
        MliftEx (env.fsmProcessFn Input.execute swap context tx_conf)
      storeSwapTrade context swap
      pure process_respond
    | Action.DepositSecondary _ _ _ =>
      pure process_respond
    | Action.BuyerPublishMwcRedeemTx => do
      emitEvent (Event.fsmProcess Input.execute)
      let (process_respond, swap) ←
        MliftEx (env.fsmProcessFn Input.execute swap context tx_conf)
      storeSwapTrade context swap
      emitEvent Event.acquireWalletLock
      -- Checking if this transaction already exist
      if !env.txLogHasKernel swap then
        emitEvent Event.walletTxOp
        MliftEx env.receiveTxRecord
      pure process_respond
    | Action.SellerPublishMwcRefundTx => do
      emitEvent (Event.fsmProcess Input.execute)
      let (process_respond, swap) ←
        MliftEx (env.fsmProcessFn Input.execute swap context tx_conf)
      storeSwapTrade context swap
      emitEvent Event.acquireWalletLock
      if !env.txLogHasKernel swap then
        emitEvent Event.walletTxOp
        MliftEx env.receiveTxRecord
      pure process_respond
    | Action.BuyerPublishSecondaryRefundTx _ => do
      if destination.isNone then
        Mthrow (ErrorKind.Generic "Please specify destination address for your refund")
      emitEvent (Event.fsmProcess (Input.Execute destination fee_satoshi_per_byte))
      let (process_respond, swap) ← MliftEx
        (env.fsmProcessFn (Input.Execute destination fee_satoshi_per_byte) swap context tx_conf)
      storeSwapTrade context swap
      pure process_respond
    | _ =>
      -- Nothing to do
      pure process_respond

/- ## Concrete instances used to evaluate the model -/

/-- A concrete trade: Seller-side BTC swap with SwapID `"s"`, no published
secondary transactions. -/
def swap0 : Swap :=
  { id := "s", state := ⟨0⟩, role := Role.Seller, secondary_currency := Currency.Btc
    network := Network.Mainnet, secondary_redeem_address := "addr"
    secondary_data := { redeem_tx := none, refund_tx := none }, payload := 0 }

/-- A store holding exactly the trade `"s"`. -/
def store0 : Store := fun id => if id = "s" then some (0, swap0) else none

/-- An owner environment in which every external call succeeds and the FSM
`process` leaves the swap unchanged with no action. -/
def envAllOk : OwnerEnv where
  keychainRes := Except.ok ()
  deriveKeyRes := Except.ok ()
  chainTip := Except.ok 100
  parseCurrency := fun _ => Except.ok Currency.Btc
  createInstance := fun _ => Except.ok ()
  selectCoins := Except.ok ()
  makeSellerContext := fun _ => Except.ok 0
  makeBuyerContext := fun _ => Except.ok 0
  createSwapOffer := fun _ => Except.ok swap0
  acceptSwapOffer := fun _ => Except.ok swap0
  requestConf := fun _ => Except.ok 0
  fsmProcessFn := fun _ s _ _ => Except.ok ({ next_state_id := s.state, action := none }, s)
  isCancellable := fun _ => Except.ok true
  hasState := fun _ => true
  parseStateCmd := fun _ => Except.ok ⟨0⟩
  parseMessage := fun _ => Except.ok { id := "s", inner := Update.Offer Currency.Btc 0 }
  readFileRes := fun _ => Except.ok ""
  txLogHasKernel := fun _ => false
  lockTxContext := Except.ok ()
  receiveTxRecord := Except.ok ()

/-- As `envAllOk`, but the FSM reports the trade as not cancellable. -/
def envNotCancellable : OwnerEnv :=
  { envAllOk with isCancellable := fun _ => Except.ok false }

/-- As `envAllOk`, but every state fails the `has_state` membership check. -/
def envBadState : OwnerEnv :=
  { envAllOk with hasState := fun _ => false }

/-- As `envAllOk`, but the Check phase asks for the offer message to be sent. -/
def envSendAction : OwnerEnv :=
  { envAllOk with
    fsmProcessFn := fun _ s _ _ =>
      Except.ok
        ({ next_state_id := s.state
           action := some (Action.SellerSendOfferMessage { id := s.id, inner := Update.Offer s.secondary_currency 0 }) },
         s) }

/-- A message sender that always fails with a transport error. -/
def sendErr : Message → Except ErrorKind Unit :=
  fun _ => Except.error (ErrorKind.NodeError "transport down")

/-- A concrete trade whose secondary data already stores a redeem txid. -/
def btcSwapRedeemed : Swap :=
  { swap0 with secondary_data := { redeem_tx := some 7, refund_tx := none } }

/-- A BTC API environment in which every external call succeeds. -/
def btcEnv0 : BtcApiEnv where
  parseAddress := fun _ => some ()
  deriveCosignKey := Except.ok ()
  calcRedeemSecret := Except.ok ()
  scriptOf := fun _ => Except.ok ()
  unspentOutputs := []
  btcTip := 0
  buildRedeemTx := fun _ => Except.ok { txid := 9 }
  postTxResult := Except.ok ()

/-- A concrete BTC node `transaction` lookup: hash 1 unknown, hash 2 in mempool,
every other hash at height 3. -/
def lookup0 : Nat → Except ErrorKind (Option (Option Nat)) := fun h =>
  if h = 1 then Except.ok none
  else if h = 2 then Except.ok (some none)
  else Except.ok (some (some 3))

/-- `true` when the trace records an acquisition of a per-SwapID advisory lock. -/
def hasTradeLockEvent (t : List Event) : Bool :=
  t.any fun e =>
    match e with
    | Event.acquireTradeLock _ => true
    | _ => false

/- ## Helper lemmas -/

/-- The classification loop of `btc_balance`, characterized over an arbitrary
accumulator. -/
theorem btcBalance_foldl_char (hgt n : Nat) (outs : List Output) :
    ∀ (p c : Nat) (l : Option Nat) (lst : List Output),
      outs.foldl (btcBalanceStep hgt n) (p, c, l, lst)
        = (p + pendingSpec outs hgt n, c + confirmedSpec outs hgt n, leastFold hgt n l outs,
           lst ++ outs.filter fun o => o.height ≠ 0) := by
  induction outs with
  | nil =>
    intro p c l lst
    simp [pendingSpec, confirmedSpec, leastFold]
  | cons o os ih =>
    intro p c l lst
    simp only [List.foldl_cons]
    by_cases h0 : o.height = 0
    · rw [show btcBalanceStep hgt n (p, c, l, lst) o = (p + o.value, c, some 0, lst) from by
        simp [btcBalanceStep, h0]]
      rw [ih]
      have hpend : pendingSpec (o :: os) hgt n = o.value + pendingSpec os hgt n := by
        simp [pendingSpec, List.filter_cons, h0]
      have hconf : confirmedSpec (o :: os) hgt n = confirmedSpec os hgt n := by
        simp [confirmedSpec, List.filter_cons, isConfirmedOutput, h0]
      have hleast : leastFold hgt n l (o :: os) = leastFold hgt n (some 0) os := by
        simp [leastFold, h0]
      have hfilt : (o :: os).filter (fun o => o.height ≠ 0) = os.filter fun o => o.height ≠ 0 := by
        simp [List.filter_cons, h0]
      rw [hpend, hconf, hleast, hfilt]
      ring_nf
    · by_cases hc : n ≤ hgt - o.height + 1
      · rw [show btcBalanceStep hgt n (p, c, l, lst) o
            = (p, c + o.value, l, lst ++ [o]) from by
          simp [btcBalanceStep, h0, hc]]
        rw [ih]
        have hnc : ¬ (hgt - o.height + 1 < n) := by omega
        have hpend : pendingSpec (o :: os) hgt n = pendingSpec os hgt n := by
          simp [pendingSpec, List.filter_cons, h0, confOf, hnc]
        have hconf : confirmedSpec (o :: os) hgt n = o.value + confirmedSpec os hgt n := by
          simp [confirmedSpec, List.filter_cons, isConfirmedOutput, h0, confOf, hc]
        have hleast : leastFold hgt n l (o :: os) = leastFold hgt n l os := by
          simp [leastFold, h0, confOf, hc]
        have hfilt : (o :: os).filter (fun o => o.height ≠ 0)
            = o :: os.filter fun o => o.height ≠ 0 := by
          simp [List.filter_cons, h0]
        rw [hpend, hconf, hleast, hfilt]
        simp [Nat.add_assoc]
      · rw [show btcBalanceStep hgt n (p, c, l, lst) o
            = (p + o.value, c,
               if (l.map fun least => decide (hgt - o.height + 1 < least)).getD true then
                 some (hgt - o.height + 1)
               else l, lst ++ [o]) from by
          simp [btcBalanceStep, h0, hc]]
        rw [ih]
        have hlt : hgt - o.height + 1 < n := by omega
        have hpend : pendingSpec (o :: os) hgt n = o.value + pendingSpec os hgt n := by
          simp [pendingSpec, List.filter_cons, h0, confOf, hlt]
        have hconf : confirmedSpec (o :: os) hgt n = confirmedSpec os hgt n := by
          simp [confirmedSpec, List.filter_cons, isConfirmedOutput, h0, confOf, hc]
        have hleast : leastFold hgt n l (o :: os)
            = leastFold hgt n
                (if (l.map fun least => decide (hgt - o.height + 1 < least)).getD true then
                   some (hgt - o.height + 1)
                 else l) os := by
          simp [leastFold, h0, confOf, hc]
        have hfilt : (o :: os).filter (fun o => o.height ≠ 0)
            = o :: os.filter fun o => o.height ≠ 0 := by
          simp [List.filter_cons, h0]
        rw [hpend, hconf, hleast, hfilt]
        simp [Nat.add_assoc]

/-- Once a mempool output has set `least_confirmations` to `0`, it stays `0`:
every later confirmation count is positive. -/
theorem leastFold_some_zero (hgt n : Nat) (outs : List Output) :
    leastFold hgt n (some 0) outs = some 0 := by
  induction outs with
  | nil => rfl
  | cons o os ih =>
    by_cases h0 : o.height = 0
    · simp [leastFold, h0, ih]
    · by_cases hc : n ≤ confOf hgt o
      · simp [leastFold, h0, hc, ih]
      · simp [leastFold, h0, hc, ih, confOf]

/-- The running minimum of `leastFold` from a set accumulator. -/
theorem leastFold_some (hgt n : Nat) (outs : List Output) :
    ∀ a : Nat, leastFold hgt n (some a) outs
      = if outs.any (fun o => o.height == 0) then some 0
        else some ((pendConfs hgt n outs).foldl min a) := by
  induction outs with
  | nil => intro a; simp [leastFold, pendConfs]
  | cons o os ih =>
    intro a
    by_cases h0 : o.height = 0
    · simp [leastFold, h0, leastFold_some_zero]
    · by_cases hc : n ≤ confOf hgt o
      · have hnc : ¬ (confOf hgt o < n) := by omega
        simp [leastFold, h0, hc, ih, pendConfs, List.filter_cons, hnc]
      · have hlt : confOf hgt o < n := by omega
        by_cases ha : confOf hgt o < a
        · simp [leastFold, h0, hc, ha, ih, pendConfs, List.filter_cons, hlt,
            Nat.min_eq_right (Nat.le_of_lt ha)]
        · have : min a (confOf hgt o) = a := Nat.min_eq_left (by omega)
          simp [leastFold, h0, hc, ha, ih, pendConfs, List.filter_cons, hlt, this]

/-- The `least_confirmations` loop from the initial `None` accumulator. -/
theorem leastFold_none (hgt n : Nat) (outs : List Output) :
    leastFold hgt n none outs
      = if outs.any (fun o => o.height == 0) then some 0
        else (pendConfs hgt n outs).min? := by
  induction outs with
  | nil => simp [leastFold, pendConfs]
  | cons o os ih =>
    by_cases h0 : o.height = 0
    · simp [leastFold, h0, leastFold_some_zero]
    · by_cases hc : n ≤ confOf hgt o
      · have hnc : ¬ (confOf hgt o < n) := by omega
        simp [leastFold, h0, hc, ih, pendConfs, List.filter_cons, hnc]
      · have hlt : confOf hgt o < n := by omega
        simp [leastFold, h0, hc, leastFold_some, pendConfs, List.filter_cons, hlt, List.min?]

/-- The output list produced by `sort_by` is sorted by txid (ascending). -/
theorem sortByTxid_sorted (l : List Output) : List.Sorted txidLe (sortByTxid l) :=
  List.sorted_insertionSort txidLe l

/-- The sorted output list is a permutation of its input. -/
theorem sortByTxid_perm (l : List Output) : (sortByTxid l).Perm l :=
  List.perm_insertionSort txidLe l

/-- Two permutations of the same outputs sort identically when the txids are
pairwise distinct. -/
theorem sortByTxid_eq_of_perm (l1 l2 : List Output)
    (hperm : l1.Perm l2)
    (hnd : l1.Pairwise fun a b => a.out_point.txid ≠ b.out_point.txid) :
    sortByTxid l1 = sortByTxid l2 := by
  have hnd1 : (sortByTxid l1).Pairwise fun a b => a.out_point.txid ≠ b.out_point.txid :=
    (sortByTxid_perm l1).symm.pairwise hnd fun h => Ne.symm h
  have hnd2' : l2.Pairwise fun a b => a.out_point.txid ≠ b.out_point.txid :=
    hperm.pairwise hnd fun h => Ne.symm h
  have hnd2 : (sortByTxid l2).Pairwise fun a b => a.out_point.txid ≠ b.out_point.txid :=
    (sortByTxid_perm l2).symm.pairwise hnd2' fun h => Ne.symm h
  have hs1 : List.Sorted txidLt (sortByTxid l1) :=
    ((sortByTxid_sorted l1).and hnd1).imp fun h => Nat.lt_of_le_of_ne h.1 h.2
  have hs2 : List.Sorted txidLt (sortByTxid l2) :=
    ((sortByTxid_sorted l2).and hnd2).imp fun h => Nat.lt_of_le_of_ne h.1 h.2
  exact List.eq_of_perm_of_sorted
    (((sortByTxid_perm l1).trans hperm).trans (sortByTxid_perm l2).symm) hs1 hs2

/- ## Claim theorems -/

/-- Claim C1: when the state machine reports `is_cancellable() = false`, calling
`swap_adjust` with the command `cancel` fails with an error and the persisted
trade record is not rewritten — the store is returned unchanged, no FSM
`process` runs and no `storeTrade` event is emitted. -/
theorem swap_adjust_cancel_rejected_when_not_cancellable
    (env : OwnerEnv) (store : Store) (swap_id : String) (context : Context) (swap : Swap)
    (hget : store swap_id = some (context, swap))
    (hkc : env.keychainRes = Except.ok ())
    (hdk : env.deriveKeyRes = Except.ok ())
    (hci : env.createInstance swap.secondary_currency = Except.ok ())
    (hc : env.isCancellable swap = Except.ok false) :
    swap_adjust env swap_id "cancel" store []
      = (Except.error (ErrorKind.Generic "Swap Trade is not cancellable at current stage"),
         store, [Event.acquireWalletLock, Event.getTrade swap_id]) := by
  simp [swap_adjust, MonadM, Mthrow, emitEvent, MliftEx, getSwapTrade, storeSwapTrade,
    Bind.bind, Pure.pure, hget, hkc, hdk, hci, hc]

/-- Claim C1 witness: the concrete not-cancellable environment on trade `"s"`. -/
theorem swap_adjust_cancel_rejected_when_not_cancellable_witness :
    swap_adjust envNotCancellable "s" "cancel" store0 []
      = (Except.error (ErrorKind.Generic "Swap Trade is not cancellable at current stage"),
         store0, [Event.acquireWalletLock, Event.getTrade "s"]) :=
  swap_adjust_cancel_rejected_when_not_cancellable envNotCancellable store0 "s" 0 swap0
    rfl rfl rfl rfl rfl

/-- Claim C2 counterexample: when an Offer message arrives for a SwapID that is
already stored, `swap_income_message` fails with `ErrorKind::Generic`, not with
`TradeIoError` as the claim states (the store is left unchanged). -/
theorem income_duplicate_offer_error_is_generic_not_tradeio :
    (swap_income_message envAllOk "m" store0 []).1
      = Except.error (ErrorKind.Generic
          "trade with SwapID s already exist. Probably you already processed this message")
    ∧ (∀ id msg, (swap_income_message envAllOk "m" store0 []).1
        ≠ Except.error (ErrorKind.TradeIoError id msg)) := by
  refine ⟨rfl, ?_⟩
  intro id msg h
  rw [show (swap_income_message envAllOk "m" store0 []).1
      = Except.error (ErrorKind.Generic
          "trade with SwapID s already exist. Probably you already processed this message")
    from rfl] at h
  simp at h

/-- Claim C2 (amended): whenever a record with the given SwapID already exists,
creating a second trade fails and stores nothing — `swap_start` with
`TradeIoError`, `swap_income_message` on an Offer with a `Generic` error — so
the store is returned unchanged in both cases. -/
theorem duplicate_swap_id_rejected_and_not_stored :
    (∀ (env : OwnerEnv) (store : Store) (params : SwapStartArgs)
        (tip : Nat) (cur : Currency) (context : Context) (swap : Swap) (r : TradeRecord),
      env.keychainRes = Except.ok () →
      env.deriveKeyRes = Except.ok () →
      env.chainTip = Except.ok tip →
      env.parseCurrency params.secondary_currency = Except.ok cur →
      env.createInstance cur = Except.ok () →
      env.selectCoins = Except.ok () →
      env.makeSellerContext cur = Except.ok context →
      env.createSwapOffer cur = Except.ok swap →
      store swap.id = some r →
      swap_start env params store []
        = (Except.error (ErrorKind.TradeIoError swap.id "This trade record already exist"),
           store, [Event.acquireWalletLock, Event.getTrade swap.id]))
    ∧ (∀ (env : OwnerEnv) (store : Store) (msg_str : String) (message : Message)
          (sc : Currency) (payload : Nat) (r : TradeRecord),
      env.parseMessage msg_str = Except.ok message →
      message.inner = Update.Offer sc payload →
      env.keychainRes = Except.ok () →
      env.deriveKeyRes = Except.ok () →
      store message.id = some r →
      swap_income_message env msg_str store []
        = (Except.error (ErrorKind.Generic ("trade with SwapID " ++ message.id ++
             " already exist. Probably you already processed this message")),
           store, [Event.acquireWalletLock, Event.getTrade message.id])) := by
  constructor
  · intro env store params tip cur context swap r hkc hdk htip hcur hci hsel hctx hoff hget
    simp [swap_start, MonadM, Mthrow, emitEvent, MliftEx, tradeExists, storeSwapTrade,
      Bind.bind, Pure.pure, hkc, hdk, htip, hcur, hci, hsel, hctx, hoff, hget]
  · intro env store msg_str message sc payload r hmsg hin hkc hdk hget
    simp [swap_income_message, MonadM, Mthrow, emitEvent, MliftEx, tradeExists, storeSwapTrade,
      Bind.bind, Pure.pure, hmsg, hin, hkc, hdk, hget]

/-- Claim C2 witness: concrete duplicate-`"s"` runs of both paths. -/
theorem duplicate_swap_id_rejected_and_not_stored_witness :
    swap_start envAllOk { secondary_currency := "BTC" } store0 []
      = (Except.error (ErrorKind.TradeIoError "s" "This trade record already exist"),
         store0, [Event.acquireWalletLock, Event.getTrade "s"])
    ∧ swap_income_message envAllOk "m" store0 []
      = (Except.error (ErrorKind.Generic
           "trade with SwapID s already exist. Probably you already processed this message"),
         store0, [Event.acquireWalletLock, Event.getTrade "s"]) :=
  ⟨duplicate_swap_id_rejected_and_not_stored.1 envAllOk store0 { secondary_currency := "BTC" }
      100 Currency.Btc 0 swap0 (0, swap0) rfl rfl rfl rfl rfl rfl rfl rfl rfl,
   duplicate_swap_id_rejected_and_not_stored.2 envAllOk store0 "m"
      { id := "s", inner := Update.Offer Currency.Btc 0 } Currency.Btc 0 (0, swap0)
      rfl rfl rfl rfl rfl⟩

/-- Claim C3: evaluating `swap_process` (and `swap_adjust`) on a present trade in
an all-succeeding environment shows the `get → mutate → store` sequence running
with no per-SwapID advisory-lock acquisition in the trace — `swap_process` even
releases the wallet-wide lock before reading the trade. -/
theorem swap_api_mutates_trade_without_per_swap_lock :
    (swap_process envAllOk "s" (fun _ => Except.ok ()) none none store0 []).2.2
      = [Event.acquireWalletLock, Event.releaseWalletLock, Event.getTrade "s",
         Event.fsmProcess Input.Check, Event.storeTrade "s"]
    ∧ hasTradeLockEvent
        (swap_process envAllOk "s" (fun _ => Except.ok ()) none none store0 []).2.2 = false
    ∧ (swap_adjust envAllOk "s" "cancel" store0 []).2.2
      = [Event.acquireWalletLock, Event.getTrade "s",
         Event.fsmProcess Input.Cancel, Event.storeTrade "s"]
    ∧ hasTradeLockEvent (swap_adjust envAllOk "s" "cancel" store0 []).2.2 = false :=
  ⟨rfl, rfl, rfl, rfl⟩

/-- Claim C4 counterexample: a single on-chain output with 1 confirmation below
the threshold 3 is classified as pending, yet it is returned in the
`confirmed_outputs` component — so `confirmed_outputs` does not contain exactly
the outputs classified as confirmed. -/
theorem btc_balance_confirmed_outputs_include_unconfirmed :
    btc_balance [{ out_point := { txid := 1, vout := 0 }, value := 5, height := 10 }] 10 3
      = (5, 0, 1, [{ out_point := { txid := 1, vout := 0 }, value := 5, height := 10 }])
    ∧ ¬ isConfirmedOutput 10 3
        { out_point := { txid := 1, vout := 0 }, value := 5, height := 10 } := by
  constructor
  · rfl
  · decide

/-- Claim C4 (amended): `btc_balance` returns exactly: pending = total value of
mempool outputs plus on-chain outputs below the threshold; confirmed = total
value of outputs at or above the threshold (confirmation count is
`tip − height + 1` with saturating subtraction); `least_confirmations` = 0 as
soon as a mempool output exists, else the minimum confirmation count over the
below-threshold on-chain outputs, else 0; and `confirmed_outputs` = all outputs
with `height ≠ 0` (at least one confirmation), in input order. -/
theorem btc_balance_characterization (outs : List Output) (hgt n : Nat) :
    btc_balance outs hgt n
      = (pendingSpec outs hgt n, confirmedSpec outs hgt n, leastSpec outs hgt n,
         outs.filter fun o => o.height ≠ 0) := by
  have hgetd : (leastFold hgt n none outs).getD 0 = leastSpec outs hgt n := by
    rw [leastFold_none]
    unfold leastSpec
    split <;> simp
  simp only [btc_balance, btcBalance_foldl_char, Nat.zero_add, List.nil_append, hgetd]

/-- Claim C5: when `secondary_data.redeem_tx` is already stored,
`seller_build_redeem_tx` fails with a `OneShot` error and emits no node query,
no transaction construction and no posting — including when called via
`publish_secondary_transaction`, with either value of `retry`. -/
theorem seller_build_redeem_tx_oneshot_when_redeem_tx_stored
    (env : BtcApiEnv) (swap : Swap) (txid : Nat) (retry : Bool)
    (hrole : swap.role = Role.Seller)
    (hpa : env.parseAddress swap.secondary_redeem_address = some ())
    (hdk : env.deriveCosignKey = Except.ok ())
    (hcs : env.calcRedeemSecret = Except.ok ())
    (hsc : env.scriptOf swap = Except.ok ())
    (hrt : swap.secondary_data.redeem_tx = some txid) :
    seller_build_redeem_tx env swap []
      = (Except.error (ErrorKind.OneShot
          "Fn: seller_build_redeem_tx, btc_data.redeem_tx is not empty"), [])
    ∧ publish_secondary_transaction env swap retry []
      = (Except.error (ErrorKind.OneShot
          "Fn: seller_build_redeem_tx, btc_data.redeem_tx is not empty"), []) := by
  constructor
  · simp [seller_build_redeem_tx, MonadN, Nthrow, NemitEvent, NliftEx,
      Bind.bind, Pure.pure, hrole, hpa, hdk, hcs, hrt]
  · simp [publish_secondary_transaction, seller_build_redeem_tx, MonadN, Nthrow,
      NemitEvent, NliftEx, Bind.bind, Pure.pure, hrole, hpa, hdk, hcs, hsc, hrt]

/-- Claim C5 witness: the concrete all-succeeding BTC environment on a swap whose
redeem txid is already stored. -/
theorem seller_build_redeem_tx_oneshot_when_redeem_tx_stored_witness :
    seller_build_redeem_tx btcEnv0 btcSwapRedeemed []
      = (Except.error (ErrorKind.OneShot
          "Fn: seller_build_redeem_tx, btc_data.redeem_tx is not empty"), [])
    ∧ publish_secondary_transaction btcEnv0 btcSwapRedeemed true []
      = (Except.error (ErrorKind.OneShot
          "Fn: seller_build_redeem_tx, btc_data.redeem_tx is not empty"), []) :=
  seller_build_redeem_tx_oneshot_when_redeem_tx_stored btcEnv0 btcSwapRedeemed 7 true
    rfl rfl rfl rfl rfl rfl

/-- Claim C6 counterexample: two outputs of the same funding transaction (equal
txid, different vout) presented in the two possible orders are the same set of
unspent outputs, yet the stable txid sort returns different lists, so the two
builds feed the redeem transaction different input orderings. -/
theorem sortByTxid_differs_on_equal_txids :
    ([(⟨⟨5, 0⟩, 1, 1⟩ : Output), ⟨⟨5, 1⟩, 1, 1⟩].Perm [⟨⟨5, 1⟩, 1, 1⟩, ⟨⟨5, 0⟩, 1, 1⟩])
    ∧ sortByTxid [⟨⟨5, 0⟩, 1, 1⟩, ⟨⟨5, 1⟩, 1, 1⟩]
        ≠ sortByTxid [⟨⟨5, 1⟩, 1, 1⟩, ⟨⟨5, 0⟩, 1, 1⟩] := by
  constructor
  · decide
  · decide

/-- Claim C6 (amended): the outputs spent by the Seller's secondary redeem
transaction are sorted in ascending txid order before the transaction is built
(the sort permutes the input), and any two builds over the same set of unspent
outputs produce the same input list — hence the same transaction — provided the
outputs' txids are pairwise distinct. -/
theorem sortByTxid_sorted_and_deterministic_on_distinct_txids :
    (∀ l : List Output, List.Sorted txidLe (sortByTxid l) ∧ (sortByTxid l).Perm l)
    ∧ (∀ l1 l2 : List Output, l1.Perm l2 →
        (l1.Pairwise fun a b => a.out_point.txid ≠ b.out_point.txid) →
        sortByTxid l1 = sortByTxid l2) :=
  ⟨fun l => ⟨sortByTxid_sorted l, sortByTxid_perm l⟩, sortByTxid_eq_of_perm⟩

/-- Claim C6 witness: two distinct-txid outputs in both orders sort to the same
list. -/
theorem sortByTxid_sorted_and_deterministic_on_distinct_txids_witness :
    (List.Sorted txidLe (sortByTxid [(⟨⟨2, 0⟩, 1, 1⟩ : Output), ⟨⟨1, 0⟩, 1, 1⟩])
      ∧ (sortByTxid [(⟨⟨2, 0⟩, 1, 1⟩ : Output), ⟨⟨1, 0⟩, 1, 1⟩]).Perm
          [(⟨⟨2, 0⟩, 1, 1⟩ : Output), ⟨⟨1, 0⟩, 1, 1⟩])
    ∧ sortByTxid [(⟨⟨2, 0⟩, 1, 1⟩ : Output), ⟨⟨1, 0⟩, 1, 1⟩]
        = sortByTxid [(⟨⟨1, 0⟩, 1, 1⟩ : Output), ⟨⟨2, 0⟩, 1, 1⟩] :=
  ⟨sortByTxid_sorted_and_deterministic_on_distinct_txids.1
      [(⟨⟨2, 0⟩, 1, 1⟩ : Output), ⟨⟨1, 0⟩, 1, 1⟩],
   sortByTxid_sorted_and_deterministic_on_distinct_txids.2
      [(⟨⟨2, 0⟩, 1, 1⟩ : Output), ⟨⟨1, 0⟩, 1, 1⟩]
      [(⟨⟨1, 0⟩, 1, 1⟩ : Output), ⟨⟨2, 0⟩, 1, 1⟩]
      (by decide) (by decide)⟩

/-- Claim C7: when the Check phase of `swap_process` yields one of the four
message-sending actions and the caller-supplied `message_sender` fails, the call
returns that error, the store holds exactly the post-Check record, and the trace
contains no `Input::execute` processing. -/
theorem swap_process_sender_error_stops_before_execute
    (env : OwnerEnv) (store : Store) (swap_id : String) (context : Context)
    (swap swap1 : Swap) (tx_conf : TxConf) (resp : StateProcessRespond)
    (m : Message) (e : ErrorKind)
    (sender : Message → Except ErrorKind Unit)
    (destination : Option String) (fee : Option Nat)
    (hget : store swap_id = some (context, swap))
    (hkc : env.keychainRes = Except.ok ())
    (hdk : env.deriveKeyRes = Except.ok ())
    (hci : env.createInstance swap.secondary_currency = Except.ok ())
    (hrc : env.requestConf swap = Except.ok tx_conf)
    (hp : env.fsmProcessFn Input.Check swap context tx_conf = Except.ok (resp, swap1))
    (ha : resp.action = some (Action.SellerSendOfferMessage m)
        ∨ resp.action = some (Action.BuyerSendAcceptOfferMessage m)
        ∨ resp.action = some (Action.BuyerSendInitRedeemMessage m)
        ∨ resp.action = some (Action.SellerSendRedeemMessage m))
    (hs : sender m = Except.error e) :
    swap_process env swap_id sender destination fee store []
      = (Except.error e,
         fun id => if id = swap1.id then some (context, swap1) else store id,
         [Event.acquireWalletLock, Event.releaseWalletLock, Event.getTrade swap_id,
          Event.fsmProcess Input.Check, Event.storeTrade swap1.id, Event.sendMessage]) := by
  rcases ha with ha | ha | ha | ha <;>
    simp [swap_process, MonadM, Mthrow, emitEvent, MliftEx, getSwapTrade, storeSwapTrade,
      Bind.bind, Pure.pure, hget, hkc, hdk, hci, hrc, hp, ha, hs]

/-- Claim C7 witness: the concrete send-action environment with a failing
transport. -/
theorem swap_process_sender_error_stops_before_execute_witness :
    swap_process envSendAction "s" sendErr none none store0 []
      = (Except.error (ErrorKind.NodeError "transport down"),
         fun id => if id = swap0.id then some (0, swap0) else store0 id,
         [Event.acquireWalletLock, Event.releaseWalletLock, Event.getTrade "s",
          Event.fsmProcess Input.Check, Event.storeTrade swap0.id, Event.sendMessage]) :=
  swap_process_sender_error_stops_before_execute envSendAction store0 "s" 0 swap0 swap0 0
    { next_state_id := swap0.state
      action := some (Action.SellerSendOfferMessage
        { id := "s", inner := Update.Offer Currency.Btc 0 }) }
    { id := "s", inner := Update.Offer Currency.Btc 0 }
    (ErrorKind.NodeError "transport down") sendErr none none
    rfl rfl rfl rfl rfl rfl (Or.inl rfl) rfl

/-- Claim C8: an adjust command other than `cancel` that parses to a state the
trade's state machine does not contain (`has_state` returns `false`) makes
`swap_adjust` fail with an error, and the persisted trade record is not
rewritten: the store is returned unchanged and no `storeTrade` event occurs. -/
theorem swap_adjust_invalid_state_rejected
    (env : OwnerEnv) (store : Store) (swap_id : String) (adjust_cmd : String)
    (context : Context) (swap : Swap) (st : StateId)
    (hne : adjust_cmd ≠ "cancel")
    (hget : store swap_id = some (context, swap))
    (hkc : env.keychainRes = Except.ok ())
    (hdk : env.deriveKeyRes = Except.ok ())
    (hci : env.createInstance swap.secondary_currency = Except.ok ())
    (hst : env.parseStateCmd adjust_cmd = Except.ok st)
    (hhs : env.hasState st = false) :
    swap_adjust env swap_id adjust_cmd store []
      = (Except.error (ErrorKind.Generic
           ("State " ++ adjust_cmd ++ " is invalid for this trade")),
         store, [Event.acquireWalletLock, Event.getTrade swap_id]) := by
  simp [swap_adjust, MonadM, Mthrow, emitEvent, MliftEx, getSwapTrade, storeSwapTrade,
    Bind.bind, Pure.pure, hne, hget, hkc, hdk, hci, hst, hhs]

/-- Claim C8 witness: the concrete environment whose `has_state` rejects every
state. -/
theorem swap_adjust_invalid_state_rejected_witness :
    swap_adjust envBadState "s" "SellerOfferCreated" store0 []
      = (Except.error (ErrorKind.Generic
           "State SellerOfferCreated is invalid for this trade"),
         store0, [Event.acquireWalletLock, Event.getTrade "s"]) :=
  swap_adjust_invalid_state_rejected envBadState store0 "s" "SellerOfferCreated" 0 swap0 ⟨0⟩
    (by decide) rfl rfl rfl rfl rfl rfl

/-- Claim C9: `get_btc_confirmation_number` returns `None` when no hash is given
or the node does not know the transaction; `Some 0` when the node reports it
without a height (mempool); and `Some (tip − height + 1)` (saturating
subtraction) when it is at a height. -/
theorem get_btc_confirmation_number_spec
    (lookup : Nat → Except ErrorKind (Option (Option Nat))) (tip : Nat) :
    get_btc_confirmation_number lookup tip none = Except.ok none
    ∧ (∀ h, lookup h = Except.ok none →
        get_btc_confirmation_number lookup tip (some h) = Except.ok none)
    ∧ (∀ h, lookup h = Except.ok (some none) →
        get_btc_confirmation_number lookup tip (some h) = Except.ok (some 0))
    ∧ (∀ h ht, lookup h = Except.ok (some (some ht)) →
        get_btc_confirmation_number lookup tip (some h) = Except.ok (some (tip - ht + 1))) := by
  refine ⟨rfl, ?_, ?_, ?_⟩
  · intro h hl; simp [get_btc_confirmation_number, hl]
  · intro h hl; simp [get_btc_confirmation_number, hl]
  · intro h ht hl; simp [get_btc_confirmation_number, hl]

/-- Claim C9 witness: the concrete node lookup `lookup0` at tip 5 — unknown tx,
mempool tx and height-3 tx. -/
theorem get_btc_confirmation_number_spec_witness :
    get_btc_confirmation_number lookup0 5 none = Except.ok none
    ∧ get_btc_confirmation_number lookup0 5 (some 1) = Except.ok none
    ∧ get_btc_confirmation_number lookup0 5 (some 2) = Except.ok (some 0)
    ∧ get_btc_confirmation_number lookup0 5 (some 9) = Except.ok (some 3) :=
  ⟨(get_btc_confirmation_number_spec lookup0 5).1,
   (get_btc_confirmation_number_spec lookup0 5).2.1 1 rfl,
   (get_btc_confirmation_number_spec lookup0 5).2.2.1 2 rfl,
   (get_btc_confirmation_number_spec lookup0 5).2.2.2 9 3 rfl⟩

/-- Claim C10: `context_key_count` returns 4 for BTC; `create_context` consumes
exactly the first four keys in the fixed source order (seller: change output,
refund output, cosign, multisig; buyer: output, redeem, refund, multisig)
without panicking whenever at least four keys are supplied, independently of any
further keys; and both operations fail with `UnexpectedCoinType` for every other
currency. -/
theorem btc_context_key_count_and_create_context_spec
    (c : Currency) (hc : c ≠ Currency.Btc)
    (ins : List SellerInput) (amt : Nat) (k0 k1 k2 k3 : Identifier)
    (rest : List Identifier) (is_seller : Bool) (inputs : Option (List SellerInput)) :
    context_key_count Currency.Btc = Except.ok 4
    ∧ context_key_count c = Except.error ErrorKind.UnexpectedCoinType
    ∧ create_context c is_seller inputs amt (k0 :: k1 :: k2 :: k3 :: rest)
        = Except.error (Failure.err ErrorKind.UnexpectedCoinType)
    ∧ create_context Currency.Btc true (some ins) amt (k0 :: k1 :: k2 :: k3 :: rest)
        = Except.ok
            { multisig_key := k3
              role_context := RoleContext.Seller
                { inputs := ins, change_output := k0, change_amount := amt,
                  refund_output := k1,
                  secondary_context := SecondarySellerContext.Btc { cosign := k2 } } }
    ∧ create_context Currency.Btc false none amt (k0 :: k1 :: k2 :: k3 :: rest)
        = Except.ok
            { multisig_key := k3
              role_context := RoleContext.Buyer
                { output := k0, redeem := k1,
                  secondary_context := SecondaryBuyerContext.Btc { refund := k2 } } } := by
  refine ⟨rfl, ?_, ?_, rfl, rfl⟩
  · simp [context_key_count, hc]
  · simp [create_context, hc]

/-- Claim C10 witness: concrete keys 10,11,12,13 (and a spare 14) with the Dash
currency for the failure cases. -/
theorem btc_context_key_count_and_create_context_spec_witness :
    context_key_count Currency.Btc = Except.ok 4
    ∧ context_key_count Currency.Dash = Except.error ErrorKind.UnexpectedCoinType
    ∧ create_context Currency.Dash true (some []) 2 [10, 11, 12, 13, 14]
        = Except.error (Failure.err ErrorKind.UnexpectedCoinType)
    ∧ create_context Currency.Btc true (some []) 2 [10, 11, 12, 13, 14]
        = Except.ok
            { multisig_key := 13
              role_context := RoleContext.Seller
                { inputs := [], change_output := 10, change_amount := 2,
                  refund_output := 11,
                  secondary_context := SecondarySellerContext.Btc { cosign := 12 } } }
    ∧ create_context Currency.Btc false none 2 [10, 11, 12, 13, 14]
        = Except.ok
            { multisig_key := 13
              role_context := RoleContext.Buyer
                { output := 10, redeem := 11,
                  secondary_context := SecondaryBuyerContext.Btc { refund := 12 } } } :=
  btc_context_key_count_and_create_context_spec Currency.Dash (by decide)
    [] 2 10 11 12 13 [14] true (some [])

end MwcWallet
